import Mathlib

/-!
Shallow embedding of the profile hook (`src/hook/useProfile.tsx`) and the
favorites screen (`src/unnamed/part_000`) of the repository, together with
proofs of the spec's claims about them.

Remote collaborators (the hosted record store, object store and auth service)
are modelled by passing their results in as explicit arguments; the calls a
handler issues are recorded as an `Event` trace, so that "performs no write"
becomes "the trace contains no write event".  React state setters become
explicit components of each handler's result.
-/

/-- A row of the `titles` table: a title name and its point threshold. -/
structure Title where
  title : String
  points_required : Nat
deriving DecidableEq, Repr

/-- The profile record selected by `getProfile` (all columns of the
`profiles` row that the hook reads). -/
structure Profile where
  id : String
  first_name : String
  last_name : String
  avatar_url : String
  preferred_transport : String
  points : Nat
  titles : List String
  selected_title : Option String
  favorites : List String
  updated_at : String
deriving DecidableEq, Repr

/-- One remote-collaborator call issued by a handler.  Read calls whose
results are threaded in as arguments are included only where a claim talks
about them (the storage `list` call and the image `fetch`). -/
inductive Event where
  | updateTitles (userId : String) (titles : List String)
  | updateSelectedTitle (userId : String) (title : String)
  | upsertProfile (userId : String) (avatarUrl : String) (updatedAt : String)
  | updateFavorites (userId : String) (favorites : List String)
  | storageList (folder : String)
  | storageRemove (keys : List String)
  | storageUpload (path : String)
  | fetchUri (uri : String)
  | authSignOut
deriving DecidableEq, Repr

/-! ## Title unlock evaluator (`fetchTitles`, useProfile.tsx lines 70-114) -/

/-- The filter-map at lines 92-96: titles whose threshold is met and which
are not already contained in the profile's unlocked list. -/
def newlyUnlockedTitles (data : List Title) (points : Nat) (unlocked : List String) :
    List String :=
  (data.filter fun t => decide (t.points_required ≤ points) && !(unlocked.contains t.title)).map
    (fun t => t.title)

/-- Line 99: `[...(profileData.titles || []), ...newlyUnlockedTitles]`. -/
def updatedTitles (unlocked newly : List String) : List String :=
  unlocked ++ newly

/-- Result of a `fetchTitles` run: the delta of newly unlocked titles, the
write calls issued, and the value passed to `setTitles`. -/
structure FetchTitlesOut where
  newlyUnlocked : List String
  writes : List Event
  titlesState : List Title
deriving DecidableEq, Repr

/-- `fetchTitles` (lines 70-114).  `session` carries the user id when a
session exists; `titlesResult` is the outcome of the ordered select on the
`titles` table; `profileData` is the `points, titles` row (the code checks
only `data`, ignoring that query's error field).  The update at lines
101-104 is issued only when the delta is non-empty. -/
def fetchTitles (session : Option String)
    (titlesResult : Except String (List Title))
    (profileData : Option (Nat × List String)) :
    Except String FetchTitlesOut :=
  match session with
  | none => .error "No user session found"
  | some userId =>
    match titlesResult with
    | .error e => .error e
    | .ok data =>
      match profileData with
      | none => .ok ⟨[], [], data⟩
      | some (points, titles) =>
        let newly := newlyUnlockedTitles data points titles
        if 0 < newly.length then
          .ok ⟨newly, [Event.updateTitles userId (updatedTitles titles newly)], data⟩
        else
          .ok ⟨newly, [], data⟩

/-- The three-row title table of the spec's scenario. -/
def rookieProElite : List Title :=
  [⟨"Rookie", 0⟩, ⟨"Pro", 50⟩, ⟨"Elite", 100⟩]

/-- Membership characterization of the unlock delta: `t` is newly unlocked
iff some table row carries it with a met threshold and it is not already
unlocked. -/
theorem mem_newlyUnlockedTitles (T : List Title) (P : Nat) (U : List String) (t : String) :
    t ∈ newlyUnlockedTitles T P U ↔
      ((∃ e ∈ T, e.title = t ∧ e.points_required ≤ P) ∧ t ∉ U) := by
  simp only [newlyUnlockedTitles, List.mem_map, List.mem_filter, Bool.and_eq_true,
    decide_eq_true_eq, Bool.not_eq_true', List.elem_eq_mem, decide_eq_false_iff_not]
  constructor
  · rintro ⟨e, ⟨he, hp, hc⟩, rfl⟩
    exact ⟨⟨e, he, rfl, hp⟩, hc⟩
  · rintro ⟨⟨e, he, rfl, hp⟩, hc⟩
    exact ⟨e, ⟨he, hp, hc⟩, rfl⟩

/-- After extending the unlocked set with the delta, the delta of a rerun at
the same points is empty. -/
theorem newlyUnlocked_after_union (T : List Title) (P : Nat) (U : List String) :
    newlyUnlockedTitles T P (updatedTitles U (newlyUnlockedTitles T P U)) = [] := by
  have h := fun t => mem_newlyUnlockedTitles T P (updatedTitles U (newlyUnlockedTitles T P U)) t
  by_contra hne
  rcases List.exists_mem_of_ne_nil _ hne with ⟨t, ht⟩
  rcases (h t).mp ht with ⟨⟨e, he, rfl, hp⟩, hnotin⟩
  apply hnotin
  unfold updatedTitles
  by_cases hu : e.title ∈ U
  · exact List.mem_append_left _ hu
  · refine List.mem_append_right _ ?_
    exact (mem_newlyUnlockedTitles T P U e.title).mpr ⟨⟨e, he, rfl, hp⟩, hu⟩

/-- C1: the unlock evaluator computes as newly unlocked exactly the titles
with a met threshold that are not already unlocked; on the scenario
(points 50, unlocked {Rookie}, table Rookie/Pro/Elite) it computes ["Pro"]
and writes the unlocked set {Rookie, Pro}. -/
theorem fetchTitles_computes_exact_delta :
    (∀ (T : List Title) (P : Nat) (U : List String) (t : String),
        t ∈ newlyUnlockedTitles T P U ↔
          ((∃ e ∈ T, e.title = t ∧ e.points_required ≤ P) ∧ t ∉ U))
    ∧ fetchTitles (some "user-1") (.ok rookieProElite) (some (50, ["Rookie"]))
        = .ok ⟨["Pro"], [Event.updateTitles "user-1" ["Rookie", "Pro"]], rookieProElite⟩ :=
  ⟨mem_newlyUnlockedTitles, rfl⟩

/-- C2: when the delta is non-empty the evaluator persists the union of the
old unlocked set with the delta (not a replacement), and a second run at the
same points against the extended set yields an empty delta and issues no
write. -/
theorem fetchTitles_union_and_idempotent (uid : String) (T : List Title) (P : Nat)
    (U : List String) (h : newlyUnlockedTitles T P U ≠ []) :
    fetchTitles (some uid) (.ok T) (some (P, U))
      = .ok ⟨newlyUnlockedTitles T P U,
             [Event.updateTitles uid (updatedTitles U (newlyUnlockedTitles T P U))], T⟩
    ∧ fetchTitles (some uid) (.ok T) (some (P, updatedTitles U (newlyUnlockedTitles T P U)))
      = .ok ⟨[], [], T⟩ := by
  constructor
  · have hlen : 0 < (newlyUnlockedTitles T P U).length := List.length_pos.mpr h
    simp [fetchTitles, hlen]
  · simp [fetchTitles, newlyUnlocked_after_union]

/-- Scenario instance of the union-and-idempotence theorem at points 50,
unlocked {Rookie}, table Rookie/Pro/Elite. -/
theorem fetchTitles_union_and_idempotent_witness :
    fetchTitles (some "user-2") (.ok rookieProElite) (some (50, ["Rookie"]))
      = .ok ⟨newlyUnlockedTitles rookieProElite 50 ["Rookie"],
             [Event.updateTitles "user-2"
               (updatedTitles ["Rookie"] (newlyUnlockedTitles rookieProElite 50 ["Rookie"]))],
             rookieProElite⟩
    ∧ fetchTitles (some "user-2") (.ok rookieProElite)
        (some (50, updatedTitles ["Rookie"] (newlyUnlockedTitles rookieProElite 50 ["Rookie"])))
      = .ok ⟨[], [], rookieProElite⟩ :=
  fetchTitles_union_and_idempotent "user-2" rookieProElite 50 ["Rookie"] (by decide)

/-! ## Title selection (`handleSelectTitle`, useProfile.tsx lines 310-335) -/

/-- `handleSelectTitle`.  The guard at line 314 (`!profile?.titles?.includes(title)`)
throws the precondition error before any remote call; on success the update
at lines 320-323 is issued and the snapshot is patched in place (line 329).
Result: (events issued, outcome thrown to the caller, final profile state). -/
def handleSelectTitle (session : Option String) (profile : Option Profile)
    (title : String) (updateResult : Except String Unit) :
    List Event × Except String Unit × Option Profile :=
  match session with
  | none => ([], .error "No user session found", profile)
  | some userId =>
    if (match profile with
        | some p => p.titles.contains title
        | none => false) then
      match updateResult with
      | .error e => ([Event.updateSelectedTitle userId title], .error e, profile)
      | .ok _ =>
        ([Event.updateSelectedTitle userId title], .ok (),
         profile.map fun p => { p with selected_title := some title })
    else
      ([], .error "You have not unlocked this title yet.", profile)

/-- A concrete profile used in scenario instances: 50 points, Rookie
unlocked, no selection. -/
def profileRookie : Profile :=
  { id := "user-1", first_name := "Ada", last_name := "L", avatar_url := "",
    preferred_transport := "bus", points := 50, titles := ["Rookie"],
    selected_title := none, favorites := [], updated_at := "t0" }

/-- C3: selecting a locked title fails with the precondition error, issues
no write and leaves the snapshot untouched; selecting an unlocked title
issues the `selected_title` update and patches the snapshot in place. -/
theorem handleSelectTitle_guard_and_success (uid title : String) (p : Profile)
    (upd : Except String Unit) :
    (title ∉ p.titles →
      handleSelectTitle (some uid) (some p) title upd
        = ([], .error "You have not unlocked this title yet.", some p))
    ∧ (title ∈ p.titles →
      handleSelectTitle (some uid) (some p) title (.ok ())
        = ([Event.updateSelectedTitle uid title], .ok (),
           some { p with selected_title := some title })) := by
  constructor
  · intro h
    simp [handleSelectTitle, List.elem_eq_mem, h]
  · intro h
    simp [handleSelectTitle, List.elem_eq_mem, h]

/-- Scenario instance of the title-selection contract: selecting the locked
"Elite" fails without effects, selecting the unlocked "Rookie" succeeds. -/
theorem handleSelectTitle_guard_and_success_witness :
    handleSelectTitle (some "user-3") (some profileRookie) "Elite" (.ok ())
      = ([], .error "You have not unlocked this title yet.", some profileRookie)
    ∧ handleSelectTitle (some "user-3") (some profileRookie) "Rookie" (.ok ())
      = ([Event.updateSelectedTitle "user-3" "Rookie"], .ok (),
         some { profileRookie with selected_title := some "Rookie" }) :=
  ⟨(handleSelectTitle_guard_and_success "user-3" "Elite" profileRookie (.ok ())).1
      (by decide),
   (handleSelectTitle_guard_and_success "user-3" "Rookie" profileRookie (.ok ())).2
      (by decide)⟩

/-! ## Sign-out (`handleSignOut`, useProfile.tsx lines 234-248) -/

/-- `handleSignOut`.  The remote `signOut` call is issued first; an error is
re-thrown at line 239 before the two `set` calls at lines 241-242, so on
failure neither the session nor the profile is cleared.  Result: (events,
outcome, final session, final profile). -/
def handleSignOut (session : Option String) (profile : Option Profile)
    (signOutResult : Except String Unit) :
    List Event × Except String Unit × Option String × Option Profile :=
  match signOutResult with
  | .error e => ([Event.authSignOut], .error e, session, profile)
  | .ok _ => ([Event.authSignOut], .ok (), none, none)

/-- C4 counterexample: when the remote sign-out call fails, `handleSignOut`
re-throws before the clearing statements, so neither the session nor the
profile snapshot is cleared — the claim that both are cleared on every
outcome is false. -/
theorem handleSignOut_failure_counterexample :
    (handleSignOut (some "user-4") (some profileRookie) (.error "network error")).2.2
      = (some "user-4", some profileRookie)
    ∧ (handleSignOut (some "user-4") (some profileRookie) (.error "network error")).2.2
      ≠ ((none : Option String), (none : Option Profile)) :=
  ⟨rfl, by decide⟩

/-- C4 amended: on remote success sign-out clears session and profile
together; on any outcome it either clears both or leaves both exactly as
they were — never one without the other. -/
theorem handleSignOut_clears_together (s : Option String) (p : Option Profile)
    (r : Except String Unit) :
    (handleSignOut s p (.ok ())).2.2 = (none, none)
    ∧ ((handleSignOut s p r).2.2 = (none, none) ∨ (handleSignOut s p r).2.2 = (s, p)) := by
  refine ⟨rfl, ?_⟩
  cases r
  · exact Or.inr rfl
  · exact Or.inl rfl

/-! ## The selected-title invariant (C8) -/

/-- Invariant of the data model: `selected_title`, when set, is a member of
`titles`. -/
def profileInv (p : Profile) : Prop :=
  ∀ t, p.selected_title = some t → t ∈ p.titles

/-- The invariant lifted to the nullable in-memory snapshot. -/
def snapshotInv : Option Profile → Prop
  | none => True
  | some p => profileInv p

/-- C8: the invariant is preserved by title selection (which only writes a
member of the unlocked set), by the unlock evaluator's titles extension
(which never removes), and by sign-out (which clears the snapshot). -/
theorem selected_title_invariant_preserved :
    (∀ (s : Option String) (prof : Option Profile) (title : String)
        (upd : Except String Unit),
        snapshotInv prof → snapshotInv (handleSelectTitle s prof title upd).2.2)
    ∧ (∀ (p : Profile) (newly : List String),
        profileInv p → profileInv { p with titles := updatedTitles p.titles newly })
    ∧ (∀ (s : Option String) (p : Option Profile),
        (handleSignOut s p (.ok ())).2.2.2 = none) := by
  refine ⟨?_, ?_, fun s p => rfl⟩
  · intro s prof title upd h
    match s with
    | none => exact h
    | some uid =>
      match prof with
      | none => simp [handleSelectTitle, snapshotInv]
      | some p =>
        by_cases hm : title ∈ p.titles
        · cases upd with
          | error e => simpa [handleSelectTitle, List.elem_eq_mem, hm] using h
          | ok u =>
            simp only [handleSelectTitle, List.elem_eq_mem, hm]
            simp [snapshotInv, profileInv]
            exact hm
        · simpa [handleSelectTitle, List.elem_eq_mem, hm] using h
  · intro p newly h t ht
    exact List.mem_append_left _ (h t ht)

/-- Scenario instance of invariant preservation: selecting the unlocked
"Rookie" on a snapshot satisfying the invariant keeps it satisfied. -/
theorem selected_title_invariant_preserved_witness :
    snapshotInv (handleSelectTitle (some "user-5") (some profileRookie) "Rookie" (.ok ())).2.2 :=
  selected_title_invariant_preserved.1 (some "user-5") (some profileRookie) "Rookie" (.ok ())
    (by simp [snapshotInv, profileInv, profileRookie])

/-! ## Avatar persistence (`handleAvatarUpload`, useProfile.tsx lines 117-144) -/

/-- `handleAvatarUpload`: upserts `{id, avatar_url, updated_at}` and, on
success, patches only `avatar_url` in the in-memory snapshot. -/
def handleAvatarUpload (session : Option String) (profile : Option Profile)
    (publicUrl : String) (now : String) (upsertResult : Except String Unit) :
    List Event × Except String Unit × Option Profile :=
  match session with
  | none => ([], .error "No user session found", profile)
  | some userId =>
    match upsertResult with
    | .error e => ([Event.upsertProfile userId publicUrl now], .error e, profile)
    | .ok _ =>
      ([Event.upsertProfile userId publicUrl now], .ok (),
       profile.map fun p => { p with avatar_url := publicUrl })

/-! ## Avatar replacement protocol (`handleImagePicker`, lines 147-231) -/

/-- One picked image: its device uri and optional mime type. -/
structure Asset where
  uri : String
  mimeType : Option String
deriving DecidableEq, Repr

/-- Results of the collaborator calls the picker flow can make: permission
status string, picker cancellation/assets, storage `list` under the user-id
folder, storage `remove`, image `fetch` success, storage `upload`, public
url resolution, profile upsert, and the clock value. -/
structure PickerEnv where
  permStatus : String
  canceled : Bool
  assets : List Asset
  listResult : Except String (List String)
  removeResult : Except String Unit
  fetchOk : Bool
  uploadResult : Except String Unit
  publicUrl : Option String
  upsertResult : Except String Unit
  now : String
deriving Repr

/-- The fetch/upload/persist tail of the picker flow (lines 199-225), run
after the conditional delete with the events issued so far.  Returns
(events, outcome, final uploading flag, final profile); the `finally` at
line 229 makes the flag `false` on every path. -/
def avatarUploadPhase (userId : String) (profile : Option Profile) (file : Asset)
    (filePath : String) (env : PickerEnv) (evs : List Event) :
    List Event × Except String Unit × Bool × Option Profile :=
  if env.fetchOk then
    match env.uploadResult with
    | .error e =>
      (evs ++ [Event.fetchUri file.uri, Event.storageUpload filePath], .error e, false, profile)
    | .ok _ =>
      match env.publicUrl with
      | none =>
        (evs ++ [Event.fetchUri file.uri, Event.storageUpload filePath],
         .error "Failed to get public URL for the uploaded image.", false, profile)
      | some url =>
        let r := handleAvatarUpload (some userId) profile url env.now env.upsertResult
        (evs ++ [Event.fetchUri file.uri, Event.storageUpload filePath] ++ r.1,
         r.2.1, false, r.2.2)
  else
    (evs ++ [Event.fetchUri file.uri], .error "Failed to fetch image", false, profile)

/-- `handleImagePicker` (lines 147-231).  Permission denial and user
cancellation return silently (lines 152-154, 163-165); the storage folder
named by the user id is listed, and only when it is non-empty is the single
object `userId.fileExt` removed (lines 181-197) before the upload. -/
def handleImagePicker (session : Option String) (profile : Option Profile)
    (env : PickerEnv) :
    List Event × Except String Unit × Bool × Option Profile :=
  if env.permStatus ≠ "granted" then
    ([], .ok (), false, profile)
  else if env.canceled then
    ([], .ok (), false, profile)
  else
    match env.assets with
    | [] => ([], .error "No image selected.", false, profile)
    | file :: _ =>
      match session with
      | none => ([], .error "No user session found", false, profile)
      | some userId =>
        let fileExt := (file.uri.splitOn ".").getLastD ""
        let filePath := userId ++ "." ++ fileExt
        match env.listResult with
        | .error e => ([Event.storageList userId], .error e, false, profile)
        | .ok existingFiles =>
          if 0 < existingFiles.length then
            match env.removeResult with
            | .error e =>
              ([Event.storageList userId, Event.storageRemove [filePath]],
               .error e, false, profile)
            | .ok _ =>
              avatarUploadPhase userId profile file filePath env
                [Event.storageList userId, Event.storageRemove [filePath]]
          else
            avatarUploadPhase userId profile file filePath env [Event.storageList userId]

/-- C5: on the happy path, when the storage listing for the user is
non-empty the single object keyed by the user id is removed before the new
object is written; when it is empty the delete step is skipped and the flow
proceeds directly to the write. -/
theorem handleImagePicker_delete_then_write (uid url now : String) (file : Asset)
    (l : List String) (p : Option Profile) :
    (handleImagePicker (some uid) p
        ⟨"granted", false, [file], .ok l, .ok (), true, .ok (), some url, .ok (), now⟩).1
      = (let fp := uid ++ "." ++ (file.uri.splitOn ".").getLastD ""
         if 0 < l.length then
           [Event.storageList uid, Event.storageRemove [fp], Event.fetchUri file.uri,
            Event.storageUpload fp, Event.upsertProfile uid url now]
         else
           [Event.storageList uid, Event.fetchUri file.uri,
            Event.storageUpload fp, Event.upsertProfile uid url now]) := by
  cases l with
  | nil => rfl
  | cons a as => simp [handleImagePicker, avatarUploadPhase, handleAvatarUpload]

/-- C6: when media permission is not granted the picker flow returns with no
events at all (no storage list, remove, upload, fetch or profile write), no
error surfaced, the uploading flag back at false, and the profile snapshot
untouched. -/
theorem handleImagePicker_permission_denied_noop (s : Option String)
    (p : Option Profile) (env : PickerEnv) (h : env.permStatus ≠ "granted") :
    handleImagePicker s p env = ([], .ok (), false, p) := by
  simp [handleImagePicker, h]

/-- Scenario instance of the permission-denied no-op at status "denied". -/
theorem handleImagePicker_permission_denied_noop_witness :
    handleImagePicker (some "user-6") (some profileRookie)
        ⟨"denied", false, [], .ok [], .ok (), true, .ok (), none, .ok (), "t1"⟩
      = ([], .ok (), false, some profileRookie) :=
  handleImagePicker_permission_denied_noop (some "user-6") (some profileRookie)
    ⟨"denied", false, [], .ok [], .ok (), true, .ok (), none, .ok (), "t1"⟩ (by decide)

/-! ## Direct avatar upload (`uploadAvatar`, useProfile.tsx lines 251-307) -/

/-- The `uri` parameter of `uploadAvatar`: either a uri string or a File
object (of which only the name is consulted, for the extension). -/
inductive ImageSource where
  | fromUri (uri : String)
  | fromFile (name : String)
deriving DecidableEq, Repr

/-- Results of the collaborator calls `uploadAvatar` can make, plus the
clock value used for the timestamped key and `updated_at`. -/
structure UploadEnv where
  fetchOk : Bool
  statusText : String
  uploadResult : Except String Unit
  publicUrl : Option String
  upsertResult : Except String Unit
  now : String
deriving Repr

/-- JS `String.prototype.startsWith`, executable over the character data. -/
def jsStartsWith (s search : String) : Bool :=
  search.data.isPrefixOf s.data

/-- JS `uri.split('.').pop() || 'jpg'` (line 276): the last dot-separated
segment, defaulting to "jpg" when it is empty. -/
def fileExtOf (s : String) : String :=
  let e := (s.splitOn ".").getLastD ""
  if e = "" then "jpg" else e

/-- The upload/persist tail of `uploadAvatar` (lines 275-301): upload under
the timestamped key `avatars/userId_now.ext`, resolve the public url and
persist it via `handleAvatarUpload`. -/
def uploadBlobPhase (userId : String) (profile : Option Profile) (fileExt : String)
    (env : UploadEnv) (evs : List Event) :
    List Event × Except String Unit × Bool × Option Profile :=
  let filePath := "avatars/" ++ userId ++ "_" ++ env.now ++ "." ++ fileExt
  match env.uploadResult with
  | .error e => (evs ++ [Event.storageUpload filePath], .error e, false, profile)
  | .ok _ =>
    match env.publicUrl with
    | none =>
      (evs ++ [Event.storageUpload filePath],
       .error "Failed to get public URL for the uploaded image.", false, profile)
    | some url =>
      let r := handleAvatarUpload (some userId) profile url env.now env.upsertResult
      (evs ++ [Event.storageUpload filePath] ++ r.1, r.2.1, false, r.2.2)

/-- `uploadAvatar` (lines 251-307).  A string source whose uri starts with
neither "http" nor "data:" is rejected at lines 261-263 before the fetch; a
File source skips the check and supplies the blob directly.  Result:
(events, outcome, final uploading flag, final profile). -/
def uploadAvatar (session : Option String) (profile : Option Profile)
    (src : ImageSource) (env : UploadEnv) :
    List Event × Except String Unit × Bool × Option Profile :=
  match session with
  | none => ([], .error "User not authenticated", false, profile)
  | some userId =>
    match src with
    | .fromUri uri =>
      if !(jsStartsWith uri "http") && !(jsStartsWith uri "data:") then
        ([], .error "Invalid image URI", false, profile)
      else if env.fetchOk then
        uploadBlobPhase userId profile (fileExtOf uri) env [Event.fetchUri uri]
      else
        ([Event.fetchUri uri],
         .error ("Failed to fetch image: " ++ env.statusText), false, profile)
    | .fromFile name =>
      uploadBlobPhase userId profile (fileExtOf name) env []

/-- C9: a string uri starting with neither "http" nor "data:" makes
`uploadAvatar` fail with "Invalid image URI" before any fetch, storage
upload or profile write, with the uploading flag reset to false and the
snapshot untouched. -/
theorem uploadAvatar_invalid_uri_guard (uid uri : String) (p : Option Profile)
    (env : UploadEnv) (h1 : jsStartsWith uri "http" = false)
    (h2 : jsStartsWith uri "data:" = false) :
    uploadAvatar (some uid) p (.fromUri uri) env
      = ([], .error "Invalid image URI", false, p) := by
  simp [uploadAvatar, h1, h2]

/-- Scenario instance of the invalid-uri guard at a device file uri. -/
theorem uploadAvatar_invalid_uri_guard_witness :
    uploadAvatar (some "user-7") (some profileRookie) (.fromUri "file:///tmp/photo.png")
        ⟨true, "", .ok (), none, .ok (), "t2"⟩
      = ([], .error "Invalid image URI", false, some profileRookie) :=
  uploadAvatar_invalid_uri_guard "user-7" "file:///tmp/photo.png" (some profileRookie)
    ⟨true, "", .ok (), none, .ok (), "t2"⟩ (by decide) (by decide)

/-! ## Favorites screen (`src/unnamed/part_000`) -/

/-- A row of the `hubs`, `routes` or `stops` tables as the screen reads it. -/
structure SearchItem where
  id : String
  name : String
deriving DecidableEq, Repr

/-- The `try` body of `handleSearch` (lines 94-109): three table scans whose
`data` fields are spread without an error check, so any failed query (null
data) raises a TypeError inside the try. -/
def searchBody (hubs routes stops : Except String (List SearchItem)) :
    Except String (List SearchItem) :=
  match hubs, routes, stops with
  | .ok h, .ok r, .ok s => .ok (h ++ r ++ s)
  | _, _, _ => .error "TypeError: search results are not iterable"

/-- `handleSearch` (lines 91-115).  The `catch` logs the failure with
`console.error` and does not re-throw, so the caller always sees a normal
return.  Result: (outcome seen by the caller, results state if set, final
loading flag). -/
def handleSearch (hubs routes stops : Except String (List SearchItem)) :
    Except String Unit × Option (List SearchItem) × Bool :=
  match searchBody hubs routes stops with
  | .ok results => (.ok (), some results, false)
  | .error _ => (.ok (), none, false)

/-- Lines 122-129: remove the id when present, append it otherwise. -/
def updatedFavorites (favs : List String) (itemId : String) : List String :=
  if favs.contains itemId then favs.filter (fun f => f != itemId)
  else favs ++ [itemId]

/-- `toggleFavorite` (lines 117-140).  A missing session returns silently;
a rejection of the profile update is caught and logged (`console.error`)
without re-throw, leaving the favorites state unset.  Result: (events,
outcome seen by the caller, final favorites state). -/
def toggleFavorite (session : Option String) (favs : List String) (itemId : String)
    (updateResult : Except String Unit) :
    List Event × Except String Unit × List String :=
  match session with
  | none => ([], .ok (), favs)
  | some userId =>
    let updated := updatedFavorites favs itemId
    match updateResult with
    | .error _ => ([Event.updateFavorites userId updated], .ok (), favs)
    | .ok _ => ([Event.updateFavorites userId updated], .ok (), updated)

/-- C7 counterexample: a failing hubs query in the favorites search and a
failing favorites update in the toggle are both caught and logged — the
caller receives a normal return, not the failure, so these two operations
do swallow remote failures. -/
theorem favorites_failures_swallowed :
    (handleSearch (.error "hubs query failed") (.ok []) (.ok [])).1 = .ok ()
    ∧ (toggleFavorite (some "user-8") ["stop-1"] "stop-2" (.error "update failed")).2.1
      = .ok () :=
  ⟨rfl, rfl⟩

/-- C7 amended: failures of the remote calls whose outcomes the profile
hook checks are re-thrown to the invoking screen — the titles select in
`fetchTitles`, the selected-title update in `handleSelectTitle`, the auth
sign-out, and each checked step of `handleImagePicker` and `uploadAvatar`
(storage list, prior-object remove, image fetch, storage upload, public-url
resolution, profile upsert).  Not re-thrown, besides the permission-denial
no-op: the favorites screen's search and toggle catch their failures and
only log them, and `fetchTitles` discards the error of its profiles read,
returning normally with an empty delta. -/
theorem error_propagation_policy :
    (∀ hubs routes stops, (handleSearch hubs routes stops).1 = .ok ())
    ∧ (∀ (s : Option String) (favs : List String) (itemId : String)
          (upd : Except String Unit), (toggleFavorite s favs itemId upd).2.1 = .ok ())
    ∧ (∀ (uid e : String) (pd : Option (Nat × List String)),
        fetchTitles (some uid) (.error e) pd = .error e)
    ∧ (∀ (uid : String) (T : List Title),
        fetchTitles (some uid) (.ok T) none = .ok ⟨[], [], T⟩)
    ∧ (∀ (s : Option String) (p : Option Profile) (e : String),
        (handleSignOut s p (.error e)).2.1 = .error e)
    ∧ (∀ (uid : String) (p : Profile) (title e : String), ∃ msg,
        (handleSelectTitle (some uid) (some p) title (.error e)).2.1 = .error msg)
    ∧ (∀ (uid now e : String) (p : Option Profile) (file : Asset)
          (rem : Except String Unit) (fOk : Bool) (upl : Except String Unit)
          (pu : Option String) (ups : Except String Unit),
        (handleImagePicker (some uid) p
            ⟨"granted", false, [file], .error e, rem, fOk, upl, pu, ups, now⟩).2.1
          = .error e)
    ∧ (∀ (uid now a e : String) (l : List String) (p : Option Profile) (file : Asset)
          (fOk : Bool) (upl : Except String Unit) (pu : Option String)
          (ups : Except String Unit),
        (handleImagePicker (some uid) p
            ⟨"granted", false, [file], .ok (a :: l), .error e, fOk, upl, pu, ups, now⟩).2.1
          = .error e)
    ∧ (∀ (uid now : String) (p : Option Profile) (file : Asset)
          (upl : Except String Unit) (pu : Option String) (ups : Except String Unit),
        (handleImagePicker (some uid) p
            ⟨"granted", false, [file], .ok [], .ok (), false, upl, pu, ups, now⟩).2.1
          = .error "Failed to fetch image")
    ∧ (∀ (uid now e : String) (p : Option Profile) (file : Asset)
          (pu : Option String) (ups : Except String Unit),
        (handleImagePicker (some uid) p
            ⟨"granted", false, [file], .ok [], .ok (), true, .error e, pu, ups, now⟩).2.1
          = .error e)
    ∧ (∀ (uid now : String) (p : Option Profile) (file : Asset)
          (ups : Except String Unit),
        (handleImagePicker (some uid) p
            ⟨"granted", false, [file], .ok [], .ok (), true, .ok (), none, ups, now⟩).2.1
          = .error "Failed to get public URL for the uploaded image.")
    ∧ (∀ (uid now url e : String) (p : Option Profile) (file : Asset),
        (handleImagePicker (some uid) p
            ⟨"granted", false, [file], .ok [], .ok (), true, .ok (), some url, .error e,
             now⟩).2.1
          = .error e)
    ∧ (∀ (uid st now : String) (p : Option Profile) (upl : Except String Unit)
          (pu : Option String) (ups : Except String Unit),
        (uploadAvatar (some uid) p (.fromUri "http://img.example/a.png")
            ⟨false, st, upl, pu, ups, now⟩).2.1
          = .error ("Failed to fetch image: " ++ st))
    ∧ (∀ (uid name st now e : String) (p : Option Profile) (fOk : Bool)
          (pu : Option String) (ups : Except String Unit),
        (uploadAvatar (some uid) p (.fromFile name)
            ⟨fOk, st, .error e, pu, ups, now⟩).2.1
          = .error e)
    ∧ (∀ (uid name st now : String) (p : Option Profile) (fOk : Bool)
          (ups : Except String Unit),
        (uploadAvatar (some uid) p (.fromFile name)
            ⟨fOk, st, .ok (), none, ups, now⟩).2.1
          = .error "Failed to get public URL for the uploaded image.")
    ∧ (∀ (uid name st now url e : String) (p : Option Profile) (fOk : Bool),
        (uploadAvatar (some uid) p (.fromFile name)
            ⟨fOk, st, .ok (), some url, .error e, now⟩).2.1
          = .error e) := by
  refine ⟨?_, ?_, fun uid e pd => rfl, fun uid T => rfl, fun s p e => rfl, ?_,
    fun uid now e p file rem fOk upl pu ups => rfl, ?_,
    fun uid now p file upl pu ups => rfl,
    fun uid now e p file pu ups => rfl,
    fun uid now p file ups => rfl,
    fun uid now url e p file => rfl,
    fun uid st now p upl pu ups => rfl,
    fun uid name st now e p fOk pu ups => rfl,
    fun uid name st now p fOk ups => rfl,
    fun uid name st now url e p fOk => rfl⟩
  · intro hubs routes stops
    cases h : searchBody hubs routes stops <;> simp [handleSearch, h]
  · intro s favs itemId upd
    cases s <;> cases upd <;> rfl
  · intro uid p title e
    by_cases hm : title ∈ p.titles
    · exact ⟨e, by simp [handleSelectTitle, List.elem_eq_mem, hm]⟩
    · exact ⟨"You have not unlocked this title yet.",
        by simp [handleSelectTitle, List.elem_eq_mem, hm]⟩
  · intro uid now a e l p file fOk upl pu ups
    simp [handleImagePicker]

/-- Toggling an absent id appends it; other ids are untouched. -/
theorem mem_updatedFavorites_ne (favs : List String) (itemId x : String)
    (h : x ≠ itemId) : x ∈ updatedFavorites favs itemId ↔ x ∈ favs := by
  unfold updatedFavorites
  by_cases hm : itemId ∈ favs
  · simp [List.elem_eq_mem, hm, List.mem_filter, bne_iff_ne, h]
  · simp [List.elem_eq_mem, hm, List.mem_append, h]

/-- The toggled id is present afterwards exactly when it was absent. -/
theorem mem_updatedFavorites_self (favs : List String) (itemId : String) :
    itemId ∈ updatedFavorites favs itemId ↔ itemId ∉ favs := by
  by_cases hm : itemId ∈ favs
  · simp [updatedFavorites, List.elem_eq_mem, hm, List.mem_filter]
  · simp [updatedFavorites, List.elem_eq_mem, hm]

/-- Two consecutive toggles of the same id restore membership. -/
theorem mem_updatedFavorites_twice (favs : List String) (itemId x : String) :
    x ∈ updatedFavorites (updatedFavorites favs itemId) itemId ↔ x ∈ favs := by
  by_cases hx : x = itemId
  · subst hx
    simp [mem_updatedFavorites_self, not_not]
  · rw [mem_updatedFavorites_ne _ _ _ hx, mem_updatedFavorites_ne _ _ _ hx]

/-- C10: the toggle flips exactly the given id's membership — any other id's
membership is unchanged and the toggled id is present afterwards iff it was
absent before — two consecutive toggles restore the original membership, and
on a successful update the persisted state is exactly the flipped list. -/
theorem toggleFavorite_flips_membership :
    (∀ (favs : List String) (itemId x : String), x ≠ itemId →
        (x ∈ updatedFavorites favs itemId ↔ x ∈ favs))
    ∧ (∀ (favs : List String) (itemId : String),
        itemId ∈ updatedFavorites favs itemId ↔ itemId ∉ favs)
    ∧ (∀ (favs : List String) (itemId x : String),
        x ∈ updatedFavorites (updatedFavorites favs itemId) itemId ↔ x ∈ favs)
    ∧ (∀ (uid itemId : String) (favs : List String),
        (toggleFavorite (some uid) favs itemId (.ok ())).2.2 = updatedFavorites favs itemId) :=
  ⟨mem_updatedFavorites_ne, mem_updatedFavorites_self, mem_updatedFavorites_twice,
   fun _ _ _ => rfl⟩

/-- Scenario instance of the membership flip: toggling "stop-2" leaves the
membership of "stop-1" unchanged. -/
theorem toggleFavorite_flips_membership_witness :
    ("stop-1" ∈ updatedFavorites ["stop-1", "stop-2"] "stop-2"
      ↔ "stop-1" ∈ ["stop-1", "stop-2"]) :=
  toggleFavorite_flips_membership.1 ["stop-1", "stop-2"] "stop-2" "stop-1" (by decide)
